import Mathlib

/-!
Verification of the Scroll execution-layer overlay (scroll-revm).

The development shallowly embeds the fee oracle (`src/l1block.rs`), the
transaction handler steps (`src/handler.rs`), the BLOCKHASH override
(`src/instructions.rs`) and the MODEXP precompile header check
(`src/precompile/modexp.rs`).  256-bit machine integers are embedded as `Nat`
with explicit clamping at `2 ^ 256 - 1` for the saturating operations the
source uses; code that can panic is embedded as an `Option`-valued function
(`none` = panic); fallible handler steps return `Except`.
-/

namespace ScrollRevm

/-- Modelled from the spec: the ordered Scroll hardfork identifiers
`SHANGHAI < BERNOULLI < CURIE < DARWIN < EUCLID < FEYNMAN < GALILEO`.
The `ScrollSpecId` enum with the `DARWIN`/`EUCLID`/`FEYNMAN`/`GALILEO`
variants is referenced throughout the sources (`l1block.rs`, `handler.rs`,
`instructions.rs`, `precompile/mod.rs`) but its declaration is not among the
staged files (the staged `spec.rs` is from an older lineage that stops at
`CURIE`), so the enumeration and its order are taken from the spec. -/
inductive ScrollSpecId where
  | SHANGHAI
  | BERNOULLI
  | CURIE
  | DARWIN
  | EUCLID
  | FEYNMAN
  | GALILEO
deriving DecidableEq, Repr

/-- The discriminant of the hardfork, realising the spec's total order. -/
def ScrollSpecId.toNat : ScrollSpecId → Nat
  | .SHANGHAI => 0
  | .BERNOULLI => 1
  | .CURIE => 2
  | .DARWIN => 3
  | .EUCLID => 4
  | .FEYNMAN => 5
  | .GALILEO => 6

/-- `ScrollSpecId::is_enabled_in`: `our as u8 >= other as u8`. -/
def ScrollSpecId.is_enabled_in (our other : ScrollSpecId) : Bool :=
  other.toNat ≤ our.toNat

/-- All `U256` values are below `2 ^ 256`. -/
def U256_LIMIT : Nat := 2 ^ 256

/-- The largest `U256` value, the clamp of the saturating operations. -/
def U256_MAX : Nat := 2 ^ 256 - 1

/-- `u64::MAX` (`U64_MAX` in `l1block.rs`), the final clamp of the fee. -/
def U64_MAX : Nat := 2 ^ 64 - 1

/-- `TX_L1_FEE_PRECISION` from `l1block.rs`: 1e9. -/
def TX_L1_FEE_PRECISION : Nat := 1000000000

/-- `ZERO_BYTE_COST` from `l1block.rs`. -/
def ZERO_BYTE_COST : Nat := 4

/-- `NON_ZERO_BYTE_COST` from `l1block.rs`. -/
def NON_ZERO_BYTE_COST : Nat := 16

/-- `TX_L1_COMMIT_EXTRA_COST` from `l1block.rs`. -/
def TX_L1_COMMIT_EXTRA_COST : Nat := 64

/-- `U256::saturating_add` on the `Nat` embedding. -/
def saturating_add (a b : Nat) : Nat := min (a + b) U256_MAX

/-- `U256::saturating_mul` on the `Nat` embedding. -/
def saturating_mul (a b : Nat) : Nat := min (a * b) U256_MAX

/-- Plain `U256` multiplication (used by `reward_beneficiary`), embedded as
multiplication modulo `2 ^ 256`. -/
def wrapping_mul (a b : Nat) : Nat := a * b % U256_LIMIT

/-- The oracle storage slots read by `L1BlockInfo::try_fetch`. -/
def L1_BASE_FEE_SLOT : Nat := 1

/-- The L1 fee overhead storage slot. -/
def L1_OVERHEAD_SLOT : Nat := 2

/-- The L1 fee scalar storage slot. -/
def L1_SCALAR_SLOT : Nat := 3

/-- The L1 blob base fee storage slot. -/
def L1_BLOB_BASE_FEE_SLOT : Nat := 5

/-- The L1 commit scalar storage slot (post-FEYNMAN: the exec scalar). -/
def L1_COMMIT_SCALAR_SLOT : Nat := 6

/-- The L1 blob scalar storage slot. -/
def L1_BLOB_SCALAR_SLOT : Nat := 7

/-- The compression penalty threshold storage slot. -/
def PENALTY_THRESHOLD_SLOT : Nat := 9

/-- The compression penalty factor storage slot. -/
def PENALTY_FACTOR_SLOT : Nat := 10

/-- `L1BlockInfo` from `l1block.rs`: the per-transaction snapshot of the L1
gas oracle.  Curie-and-later fields are optional, as in the source. -/
structure L1BlockInfo where
  l1_base_fee : Nat := 0
  l1_fee_overhead : Nat := 0
  l1_base_fee_scalar : Nat := 0
  l1_blob_base_fee : Option Nat := none
  l1_commit_scalar : Option Nat := none
  l1_blob_scalar : Option Nat := none
  calldata_gas : Option Nat := none
  penalty_threshold : Option Nat := none
  penalty_factor : Option Nat := none
deriving DecidableEq, Repr

/-- `L1BlockInfo::try_fetch` from `l1block.rs`.  The database collaborator is
embedded as the total map from oracle storage slots to their values (a
database I/O error aborts before any snapshot exists, so the error path
carries no snapshot to reason about). -/
def L1BlockInfo.try_fetch (db : Nat → Nat) (spec_id : ScrollSpecId) : L1BlockInfo :=
  let l1_base_fee := db L1_BASE_FEE_SLOT
  let l1_fee_overhead := db L1_OVERHEAD_SLOT
  let l1_base_fee_scalar := db L1_SCALAR_SLOT
  if ¬ spec_id.is_enabled_in .CURIE then
    { l1_base_fee := l1_base_fee
      l1_fee_overhead := l1_fee_overhead
      l1_base_fee_scalar := l1_base_fee_scalar }
  else
    let l1_blob_base_fee := db L1_BLOB_BASE_FEE_SLOT
    let l1_commit_scalar := db L1_COMMIT_SCALAR_SLOT
    let l1_blob_scalar := db L1_BLOB_SCALAR_SLOT
    let calldata_gas := saturating_mul l1_commit_scalar l1_base_fee
    if ¬ spec_id.is_enabled_in .FEYNMAN then
      { l1_base_fee := l1_base_fee
        l1_fee_overhead := l1_fee_overhead
        l1_base_fee_scalar := l1_base_fee_scalar
        l1_blob_base_fee := some l1_blob_base_fee
        l1_commit_scalar := some l1_commit_scalar
        l1_blob_scalar := some l1_blob_scalar
        calldata_gas := some calldata_gas }
    else
      { l1_base_fee := l1_base_fee
        l1_fee_overhead := l1_fee_overhead
        l1_base_fee_scalar := l1_base_fee_scalar
        l1_blob_base_fee := some l1_blob_base_fee
        l1_commit_scalar := some l1_commit_scalar
        l1_blob_scalar := some l1_blob_scalar
        calldata_gas := some calldata_gas
        penalty_threshold := some (db PENALTY_THRESHOLD_SLOT)
        penalty_factor := some (db PENALTY_FACTOR_SLOT) }

/-- `L1BlockInfo::data_gas` from `l1block.rs`.  Bytes are embedded as `Nat`
values; the Curie branch dereferences the optional blob fields with
`.expect`, embedded as `none` (= panic) when a field is missing. -/
def L1BlockInfo.data_gas (self : L1BlockInfo) (input : List Nat)
    (spec_id : ScrollSpecId) : Option Nat :=
  if ¬ spec_id.is_enabled_in .CURIE then
    some (saturating_add
      (saturating_add
        (input.foldl
          (fun acc byte =>
            acc + if byte = 0 then ZERO_BYTE_COST else NON_ZERO_BYTE_COST) 0)
        self.l1_fee_overhead)
      TX_L1_COMMIT_EXTRA_COST)
  else
    match self.l1_blob_base_fee, self.l1_blob_scalar with
    | some blob_base_fee, some blob_scalar =>
        some (saturating_mul (saturating_mul input.length blob_base_fee) blob_scalar)
    | _, _ => none

/-- `L1BlockInfo::calculate_tx_l1_cost_shanghai` from `l1block.rs`. -/
def L1BlockInfo.calculate_tx_l1_cost_shanghai (self : L1BlockInfo)
    (input : List Nat) (spec_id : ScrollSpecId) : Option Nat :=
  (self.data_gas input spec_id).map fun tx_l1_gas =>
    saturating_mul (saturating_mul tx_l1_gas self.l1_base_fee) self.l1_base_fee_scalar
      / TX_L1_FEE_PRECISION

/-- `L1BlockInfo::calculate_tx_l1_cost_curie` from `l1block.rs`; the
`calldata_gas.unwrap()` is embedded as `none` (= panic) when the field is
missing. -/
def L1BlockInfo.calculate_tx_l1_cost_curie (self : L1BlockInfo)
    (input : List Nat) (spec_id : ScrollSpecId) : Option Nat :=
  match self.calldata_gas, self.data_gas input spec_id with
  | some calldata_gas, some blob_gas =>
      some (saturating_add calldata_gas blob_gas / TX_L1_FEE_PRECISION)
  | _, _ => none

/-- `L1BlockInfo::calculate_tx_l1_cost_feynman` from `l1block.rs`.  The
`assert!` on the compression ratio and the five `unwrap_or_else(panic)`
dereferences are embedded as `none` (= panic). -/
def L1BlockInfo.calculate_tx_l1_cost_feynman (self : L1BlockInfo)
    (input : List Nat) (compression_ratio : Nat) : Option Nat :=
  if compression_ratio < TX_L1_FEE_PRECISION then none
  else
    match self.l1_commit_scalar, self.l1_blob_scalar, self.l1_blob_base_fee,
        self.penalty_threshold, self.penalty_factor with
    | some exec_scalar, some blob_scalar, some blob_base_fee,
        some penalty_threshold, some penalty_factor =>
        let tx_size := input.length
        let component_exec := saturating_mul exec_scalar self.l1_base_fee
        let component_blob := saturating_mul blob_scalar blob_base_fee
        let penalty :=
          if penalty_threshold ≤ compression_ratio then TX_L1_FEE_PRECISION
          else penalty_factor
        some (saturating_mul
            (saturating_mul tx_size (saturating_add component_exec component_blob))
            penalty
          / TX_L1_FEE_PRECISION / TX_L1_FEE_PRECISION)
    | _, _, _, _, _ => none

/-- `L1BlockInfo::calculate_tx_l1_cost` from `l1block.rs`: dispatch on the
hardfork, `unwrap` the compression factor for the Feynman path (`none` =
panic when absent), clamp the result to `u64::MAX`. -/
def L1BlockInfo.calculate_tx_l1_cost (self : L1BlockInfo) (input : List Nat)
    (spec_id : ScrollSpecId) (compression_factor : Option Nat) : Option Nat :=
  let l1_cost :=
    if ¬ spec_id.is_enabled_in .CURIE then
      self.calculate_tx_l1_cost_shanghai input spec_id
    else if ¬ spec_id.is_enabled_in .FEYNMAN then
      self.calculate_tx_l1_cost_curie input spec_id
    else
      match compression_factor with
      | none => none
      | some compression_ratio =>
          self.calculate_tx_l1_cost_feynman input compression_ratio
  l1_cost.map fun c => min c U64_MAX

/-- `L1_MESSAGE_TYPE` from `transaction.rs`: the type byte of an L1 message. -/
def L1_MESSAGE_TYPE : Nat := 0x7E

/-- `ScrollTransaction` from `transaction.rs`, restricted to the Scroll
extension fields the fee path reads. -/
structure ScrollTransaction where
  tx_type : Nat
  rlp_bytes : Option (List Nat)
  compression_ratio : Option Nat
  compressed_size : Option Nat
deriving DecidableEq, Repr

/-- `ScrollTxTr::is_l1_msg` from `transaction.rs`. -/
def ScrollTransaction.is_l1_msg (tx : ScrollTransaction) : Bool :=
  tx.tx_type = L1_MESSAGE_TYPE

/-- The `InvalidTransaction` variants of the error taxonomy that the embedded
handler steps mention. -/
inductive InvalidTransaction where
  | lackOfFundForMaxFee (fee balance : Nat)
  | callGasCostMoreThanGasLimit
  | gasFloorMoreThanGasLimit
  | eip7702NotSupported
  | invalidChainId
  | emptyAuthorizationList
  | callerGasLimitMoreThanBlock
  | createInitCodeSizeLimit
  | rejectCallerWithCode
deriving DecidableEq, Repr

/-- `matches_variant` against the `LackOfFundForMaxFee` discriminant
(`handler.rs`): true for the variant with any payload. -/
def InvalidTransaction.isLackOfFundForMaxFee : InvalidTransaction → Bool
  | .lackOfFundForMaxFee _ _ => true
  | _ => false

/-- The handler-level errors the embedded steps produce: a transaction error,
or the `Custom` string error raised when `rlp_bytes` is missing. -/
inductive EVMError where
  | transaction (err : InvalidTransaction)
  | customRlpBytesMissing
deriving DecidableEq, Repr

/-- The tail of `ScrollHandler::validate` (`handler.rs` lines 88-108): given
the outcome of the base `validate_tx_against_state` (external revm code,
abstracted as an argument), suppress a `LackOfFundForMaxFee` error exactly
when the transaction is an L1 message and the spec enables EUCLID, and
propagate every other outcome. -/
def scroll_validate_tx_against_state (res : Except InvalidTransaction Unit)
    (is_l1_msg : Bool) (spec : ScrollSpecId) : Except InvalidTransaction Unit :=
  let is_lack_of_funds_error :=
    match res with
    | .error e => e.isLackOfFundForMaxFee
    | .ok _ => false
  let should_skip_lack_of_funds_error := is_l1_msg && spec.is_enabled_in .EUCLID
  if is_lack_of_funds_error && should_skip_lack_of_funds_error then .ok () else res

/-- The caller account state the PreExecute step touches. -/
structure Account where
  balance : Nat
  nonce : Nat
  touched : Bool
  code : List Nat
deriving DecidableEq, Repr

/-- Modelled from the spec: the base mainnet `pre_execution::deduct_caller`
(external revm code) deducts the transaction max fee from the caller's
balance; nothing else of it is needed by the claims. -/
def base_deduct_caller (max_fee : Nat) (caller : Account) : Account :=
  { caller with balance := caller.balance - max_fee }

/-- `ScrollHandler::deduct_caller` from `handler.rs` (lines 313-356).
For a non-L1-message transaction: run the base deduction, require
`rlp_bytes` (else the `Custom` error), compute the L1 cost (the call site
passes the transaction's rlp bytes and the spec; the compression-factor
argument required by `calculate_tx_l1_cost` in `l1block.rs` is the
transaction's `compression_ratio`, as exercised by `tests/fees.rs`), fail
with `LackOfFundForMaxFee` when the cost exceeds the remaining balance, and
otherwise deduct it (saturating).  For an L1 message: bump the nonce for
`Call` kind (saturating at `u64::MAX`) and mark the caller touched.
`none` = a panic inside the fee computation. -/
def deduct_caller (spec : ScrollSpecId) (is_l1_msg kind_is_call : Bool)
    (max_fee : Nat) (rlp_bytes : Option (List Nat))
    (compression_factor : Option Nat) (l1_block_info : L1BlockInfo)
    (caller : Account) : Option (Except EVMError Account) :=
  if ¬ is_l1_msg then
    let caller1 := base_deduct_caller max_fee caller
    match rlp_bytes with
    | none => some (.error .customRlpBytesMissing)
    | some bytes =>
      match l1_block_info.calculate_tx_l1_cost bytes spec compression_factor with
      | none => none
      | some tx_l1_cost =>
        if caller1.balance < tx_l1_cost then
          some (.error (.transaction
            (.lackOfFundForMaxFee tx_l1_cost caller1.balance)))
        else some (.ok { caller1 with balance := caller1.balance - tx_l1_cost })
  else
    some (.ok { caller with
      nonce := if kind_is_call then min (caller.nonce + 1) U64_MAX else caller.nonce
      touched := true })

/-- The gas record of a frame result: `spent = limit - remaining`. -/
structure Gas where
  limit : Nat
  remaining : Nat
  refunded : Nat
deriving DecidableEq, Repr

/-- `Gas::spent`. -/
def Gas.spent (g : Gas) : Nat := g.limit - g.remaining

/-- `Gas::new_spent`: all gas spent, nothing refunded. -/
def Gas.new_spent (limit : Nat) : Gas :=
  { limit := limit, remaining := 0, refunded := 0 }

/-- The instruction result of the last frame, as the handler inspects it. -/
inductive FrameInstructionResult where
  | ok
  | revert
  | halt
deriving DecidableEq, Repr

/-- `InstructionResult::is_ok`. -/
def FrameInstructionResult.is_ok : FrameInstructionResult → Bool
  | .ok => true
  | _ => false

/-- `InstructionResult::is_ok_or_revert`. -/
def FrameInstructionResult.is_ok_or_revert : FrameInstructionResult → Bool
  | .ok => true
  | .revert => true
  | _ => false

/-- `ScrollHandler::last_frame_result` from `handler.rs` (lines 359-382):
spend the full gas limit, rebate `remaining` when the frame result is Ok or
Revert, and record the refund counter only for a non-L1-message transaction
whose result is Ok. -/
def last_frame_result (tx_gas_limit : Nat) (is_l1_msg : Bool)
    (instruction_result : FrameInstructionResult) (gas : Gas) : Gas :=
  let remaining := gas.remaining
  let refunded := gas.refunded
  let gas1 := Gas.new_spent tx_gas_limit
  let gas2 :=
    if instruction_result.is_ok_or_revert then
      { gas1 with remaining := gas1.remaining + remaining }
    else gas1
  if (! is_l1_msg) && instruction_result.is_ok then
    { gas2 with refunded := gas2.refunded + refunded }
  else gas2

/-- `ScrollHandler::refund` from `handler.rs` (lines 385-397): skip entirely
for an L1 message, otherwise apply the base refund rule
(`post_execution::refund`, external revm code abstracted as an argument). -/
def refund (is_l1_msg : Bool) (base_refund : Gas → Gas) (gas : Gas) : Gas :=
  if is_l1_msg then gas else base_refund gas

/-- `ScrollHandler::reward_beneficiary` from `handler.rs` (lines 399-441):
return unchanged for an L1 message; otherwise require `rlp_bytes` (else the
`Custom` error), compute the L1 cost (compression factor as in
`deduct_caller`), and add `effective_gas_price * (spent - refunded) + l1_cost`
to the beneficiary's balance (saturating adds, plain multiply).  `none` = a
panic inside the fee computation. -/
def reward_beneficiary (spec : ScrollSpecId) (is_l1_msg : Bool)
    (effective_gas_price : Nat) (l1_block_info : L1BlockInfo)
    (rlp_bytes : Option (List Nat)) (compression_factor : Option Nat)
    (gas : Gas) (beneficiary_balance : Nat) : Option (Except EVMError Nat) :=
  if is_l1_msg then some (.ok beneficiary_balance)
  else
    match rlp_bytes with
    | none => some (.error .customRlpBytesMissing)
    | some bytes =>
      match l1_block_info.calculate_tx_l1_cost bytes spec compression_factor with
      | none => none
      | some l1_cost =>
          some (.ok (saturating_add
            (saturating_add beneficiary_balance
              (wrapping_mul effective_gas_price (gas.spent - gas.refunded)))
            l1_cost))

/-- `BLOCK_HASH_HISTORY` from revm primitives: 256. -/
def BLOCK_HASH_HISTORY : Nat := 256

/-- `HISTORY_SERVE_WINDOW` from `instructions.rs`: 8191. -/
def HISTORY_SERVE_WINDOW : Nat := 8191

/-- `as_u64_saturated!` on a `U256` value. -/
def as_u64_saturated (x : Nat) : Nat := min x U64_MAX

/-- `u64::to_be_bytes`: the eight big-endian bytes of a 64-bit value. -/
def to_be_bytes8 (x : Nat) : List Nat :=
  [x / 2 ^ 56 % 256, x / 2 ^ 48 % 256, x / 2 ^ 40 % 256, x / 2 ^ 32 % 256,
   x / 2 ^ 24 % 256, x / 2 ^ 16 % 256, x / 2 ^ 8 % 256, x % 256]

/-- `compute_block_hash` from `instructions.rs`: keccak256 over the 8-byte
big-endian chain id followed by the 8-byte big-endian block number.  The
keccak256 primitive is external code, abstracted as an argument. -/
def compute_block_hash (keccak256 : List Nat → Nat)
    (chain_id block_number : Nat) : Nat :=
  keccak256 (to_be_bytes8 chain_id ++ to_be_bytes8 block_number)

/-- The observable outcome of the BLOCKHASH instruction. -/
inductive BlockhashOutcome where
  | push (value : Nat)
  | fatalExternalError
deriving DecidableEq, Repr

/-- The `blockhash` instruction from `instructions.rs` (lines 99-147).  The
journal is abstracted as whether the EIP-2935 history account loads
(`history_account_loaded`) and the `sload` view of its storage. -/
def blockhash (keccak256 : List Nat → Nat) (spec : ScrollSpecId)
    (chain_id block_number requested_number : Nat)
    (history_account_loaded : Bool) (sload : Nat → Option Nat) :
    BlockhashOutcome :=
  if block_number < requested_number then .push 0
  else
    let diff := as_u64_saturated (block_number - requested_number)
    if diff = 0 then .push 0
    else if BLOCK_HASH_HISTORY < diff then .push 0
    else if ¬ spec.is_enabled_in .FEYNMAN then
      .push (compute_block_hash keccak256 (as_u64_saturated chain_id)
        (as_u64_saturated requested_number))
    else if ¬ history_account_loaded then .fatalExternalError
    else
      match sload (as_u64_saturated requested_number % HISTORY_SERVE_WINDOW) with
      | some value => .push value
      | none => .fatalExternalError

/-- `BERNOULLI_LEN_LIMIT` from `precompile/modexp.rs`: 32. -/
def BERNOULLI_LEN_LIMIT : Nat := 32

/-- A big-endian byte string as a number. -/
def nat_of_be_bytes (bytes : List Nat) : Nat :=
  bytes.foldl (fun acc b => acc * 256 + b) 0

/-- `right_pad_with_offset::<32>(input, offset)` followed by
`U256::from_be_bytes`: the 32-byte window of the input at the offset,
right-padded with zeros, as a number. -/
def modexp_len_header (input : List Nat) (offset : Nat) : Nat :=
  let window := (input.drop offset).take 32
  nat_of_be_bytes (window ++ List.replicate (32 - window.length) 0)

/-- The typed overflow errors of the Bernoulli MODEXP. -/
inductive ModexpOverflowError where
  | modexpBaseOverflow
  | modexpExpOverflow
  | modexpModOverflow
deriving DecidableEq, Repr

/-- The header check of `bernoulli_run` from `precompile/modexp.rs` (lines
33-50): reject when the base, exponent or modulus length header exceeds 32
bytes, with the respective typed error; on `none` the run continues into the
shared `run_inner` (external revm code outside the claims). -/
def bernoulli_run_check (input : List Nat) : Option ModexpOverflowError :=
  let base_len := modexp_len_header input 0
  let exp_len := modexp_len_header input 32
  let mod_len := modexp_len_header input 64
  if BERNOULLI_LEN_LIMIT < base_len then some .modexpBaseOverflow
  else if BERNOULLI_LEN_LIMIT < exp_len then some .modexpExpOverflow
  else if BERNOULLI_LEN_LIMIT < mod_len then some .modexpModOverflow
  else none

/-- `galileo_run` from `precompile/modexp.rs` delegates to the OSAKA modexp
implementation (external revm code), which imposes no 32-byte cap on the
length headers: its header check rejects nothing. -/
def galileo_run_check (_input : List Nat) : Option ModexpOverflowError := none

/-- Modelled from the spec (in part): the MODEXP header check installed for a
spec.  Every precompile set reachable from
`ScrollPrecompileProvider::new_with_spec` in `precompile/mod.rs`
(`pre_bernoulli`, `bernoulli`, `euclid`, `feynman`) carries
`modexp::BERNOULLI`; the GALILEO arm is absent from the staged sources and is
modelled from the spec as installing the capless `galileo_run`. -/
def modexp_check_for_spec (spec : ScrollSpecId) :
    List Nat → Option ModexpOverflowError :=
  if spec.is_enabled_in .GALILEO then galileo_run_check else bernoulli_run_check

/-- The oracle storage of `test_utils.rs::context()`: slots 0..=6 hold 10000
and slot 7 holds 1e9 (shared by `tests/fees.rs` and the fee claims). -/
def fees_test_db : Nat → Nat := fun slot =>
  if slot ≤ 6 then 10000 else if slot = 7 then 1000000000 else 0

/-- The caller of `test_utils.rs` with the funds of `tests/fees.rs`
`test_should_deduct_correct_fees_curie`. -/
def c2_caller : Account := { balance := 70000, nonce := 0, touched := false, code := [] }

/-- An underfunded L1-message caller with non-empty, non-EIP-7702 code. -/
def c4_caller : Account := { balance := 0, nonce := 5, touched := false, code := [96] }

/-- The oracle snapshot of `tests/fees.rs::test_should_deduct_correct_fees_feynman`:
`l1_base_fee = 1e9`, `l1_blob_base_fee = 1e9`, `exec_scalar = 10`,
`l1_blob_scalar = 20`, `penalty_threshold = 6e9`, `penalty_factor = 2e9`. -/
def c1_info : L1BlockInfo :=
  { l1_base_fee := 1000000000
    l1_blob_base_fee := some 1000000000
    l1_commit_scalar := some 10
    l1_blob_scalar := some 20
    calldata_gas := some (10 * 1000000000)
    penalty_threshold := some 6000000000
    penalty_factor := some 2000000000 }

/-- A transaction with a 100-byte payload, compression ratio 5e9 and a
compressed size of 40 bytes. -/
def c1_tx : ScrollTransaction :=
  { tx_type := 2
    rlp_bytes := some (List.replicate 100 1)
    compression_ratio := some 5000000000
    compressed_size := some 40 }

/-- The Feynman fee formula as the claim words it, with `S` the transaction's
`compressed_size`: a spec-side definition, for comparison with the source's
`calculate_tx_l1_cost` (which reads the input length instead). -/
def spec_claim_feynman_cost (info : L1BlockInfo) (compressed_size ratio : Nat) : Nat :=
  let component_exec := info.l1_commit_scalar.getD 0 * info.l1_base_fee
  let component_blob := info.l1_blob_scalar.getD 0 * info.l1_blob_base_fee.getD 0
  let penalty :=
    if info.penalty_threshold.getD 0 ≤ ratio then TX_L1_FEE_PRECISION
    else info.penalty_factor.getD 0
  compressed_size * (component_exec + component_blob) * penalty
    / TX_L1_FEE_PRECISION / TX_L1_FEE_PRECISION

lemma enabled_CURIE_of_enabled_FEYNMAN (spec_id : ScrollSpecId)
    (h : spec_id.is_enabled_in .FEYNMAN = true) :
    spec_id.is_enabled_in .CURIE = true := by
  revert h; cases spec_id <;> decide

/-- C3: in the Validate step, a `LackOfFundForMaxFee` error from state
validation is suppressed (validation succeeds) if and only if the transaction
is an L1 message and the spec is at least EUCLID; the same error is otherwise
propagated, any other error is propagated, and a clean validation stays
clean. -/
theorem validate_suppresses_lack_of_funds_iff_l1_euclid
    (fee balance : Nat) (is_l1_msg : Bool) (spec : ScrollSpecId)
    (e : InvalidTransaction) :
    (scroll_validate_tx_against_state
        (.error (.lackOfFundForMaxFee fee balance)) is_l1_msg spec = .ok ()
      ↔ is_l1_msg = true ∧ spec.is_enabled_in .EUCLID = true)
    ∧ (¬ (is_l1_msg = true ∧ spec.is_enabled_in .EUCLID = true) →
        scroll_validate_tx_against_state
            (.error (.lackOfFundForMaxFee fee balance)) is_l1_msg spec
          = .error (.lackOfFundForMaxFee fee balance))
    ∧ (e.isLackOfFundForMaxFee = false →
        scroll_validate_tx_against_state (.error e) is_l1_msg spec = .error e)
    ∧ scroll_validate_tx_against_state (.ok ()) is_l1_msg spec = .ok () := by
  refine ⟨?_, ?_, ?_, ?_⟩
  · cases is_l1_msg <;> cases heu : spec.is_enabled_in .EUCLID <;>
      simp [scroll_validate_tx_against_state, InvalidTransaction.isLackOfFundForMaxFee, heu]
  · intro h
    cases is_l1_msg <;> cases heu : spec.is_enabled_in .EUCLID <;>
      simp_all [scroll_validate_tx_against_state, InvalidTransaction.isLackOfFundForMaxFee, heu]
  · intro he
    simp [scroll_validate_tx_against_state, he]
  · simp [scroll_validate_tx_against_state]

/-- C4 (amended): for every L1-message transaction, PreExecute loads the
caller, bumps the nonce (saturating at `u64::MAX`) exactly when the kind is
Call, marks the caller touched, and changes nothing else: in particular the
balance is never changed and no balance or code check is performed in this
branch. -/
theorem deduct_caller_l1_message_no_checks (spec : ScrollSpecId)
    (kind_is_call : Bool) (max_fee : Nat) (rlp_bytes : Option (List Nat))
    (compression_factor : Option Nat) (l1_block_info : L1BlockInfo)
    (caller : Account) :
    deduct_caller spec true kind_is_call max_fee rlp_bytes compression_factor
        l1_block_info caller
      = some (.ok { caller with
          nonce := if kind_is_call then min (caller.nonce + 1) U64_MAX else caller.nonce
          touched := true }) := by
  simp [deduct_caller]

/-- C4 counterexample: at SHANGHAI (pre-EUCLID), an L1 message whose caller
has zero balance (with a positive max fee) and non-empty, non-EIP-7702 code
passes PreExecute with no error: the step performs neither the
`max_balance_spending ≤ balance` check nor the EIP-3607 rejection the claim
attributes to it. -/
theorem deduct_caller_l1_message_no_checks_cex :
    deduct_caller .SHANGHAI true true 10 none none {} c4_caller
      = some (.ok { c4_caller with nonce := 6, touched := true }) := by rfl

/-- C5 (code-bug evidence): `reward_beneficiary` evaluated at the setup of
`tests/fees.rs::test_reward_beneficiary_system_tx` (CURIE spec, system-tx
caller, rlp bytes `0x01010101`, the `test_utils.rs` oracle, 21000 gas spent
at effective price 1, beneficiary balance 0).  The code rewards
`21000 + 40000 = 61000`, adding the L1 cost computed from the rlp bytes; the
repository's test asserts `21000`, i.e. no L1 component for a system
transaction. -/
theorem reward_beneficiary_system_tx_adds_l1_cost :
    reward_beneficiary .CURIE false 1 (L1BlockInfo.try_fetch fees_test_db .CURIE)
        (some [1, 1, 1, 1]) none (Gas.new_spent 21000) 0
      = some (.ok 61000) ∧ (61000 : Nat) ≠ 21000 := by
  exact ⟨by rfl, by decide⟩

/-- C6: for every L1-message transaction, the refund counter is zero after
FinalizeFrameGas (it is recorded only for non-L1-message transactions whose
frame result is Ok, while the remaining gas is rebated exactly for Ok or
Revert results), the Refund step is skipped, and the Reward step leaves the
beneficiary's balance unchanged. -/
theorem l1_message_no_refund_no_reward (tx_gas_limit : Nat) (gas g : Gas)
    (instruction_result : FrameInstructionResult) (is_l1_msg : Bool)
    (base_refund : Gas → Gas) (spec : ScrollSpecId) (effective_gas_price : Nat)
    (l1_block_info : L1BlockInfo) (rlp_bytes : Option (List Nat))
    (compression_factor : Option Nat) (beneficiary_balance : Nat) :
    (last_frame_result tx_gas_limit true instruction_result gas).refunded = 0
    ∧ (last_frame_result tx_gas_limit is_l1_msg instruction_result gas).refunded
        = (if (! is_l1_msg) && instruction_result.is_ok then gas.refunded else 0)
    ∧ (last_frame_result tx_gas_limit is_l1_msg instruction_result gas).remaining
        = (if instruction_result.is_ok_or_revert then gas.remaining else 0)
    ∧ refund true base_refund g = g
    ∧ reward_beneficiary spec true effective_gas_price l1_block_info rlp_bytes
        compression_factor g beneficiary_balance
        = some (.ok beneficiary_balance) := by
  refine ⟨?_, ?_, ?_, rfl, rfl⟩ <;>
    cases instruction_result <;> cases is_l1_msg <;>
      simp [last_frame_result, Gas.new_spent, FrameInstructionResult.is_ok,
        FrameInstructionResult.is_ok_or_revert]

/-- C7: whatever the result a fee computation returns, it is clamped to at
most `u64::MAX` by `calculate_tx_l1_cost`. -/
theorem calculate_tx_l1_cost_le_u64_max (self : L1BlockInfo) (input : List Nat)
    (spec_id : ScrollSpecId) (compression_factor : Option Nat) (v : Nat)
    (h : self.calculate_tx_l1_cost input spec_id compression_factor = some v) :
    v ≤ U64_MAX := by
  unfold L1BlockInfo.calculate_tx_l1_cost at h
  obtain ⟨c, -, hv⟩ := Option.map_eq_some'.mp h
  exact hv ▸ Nat.min_le_right c U64_MAX

/-- C7 witness: the clamp theorem applied at the empty snapshot, the empty
input and the SHANGHAI spec, where the computed cost is 0. -/
theorem calculate_tx_l1_cost_le_u64_max_witness :
    ({} : L1BlockInfo).calculate_tx_l1_cost [] .SHANGHAI none = some 0
      ∧ (0 : Nat) ≤ U64_MAX :=
  ⟨by decide, calculate_tx_l1_cost_le_u64_max {} [] .SHANGHAI none 0 (by decide)⟩

/-- C9: before GALILEO the installed MODEXP is `bernoulli_run`, which rejects
any input whose base, exponent or modulus length header exceeds 32 bytes with
the respective typed overflow error (and rejects nothing else at the header
check); the GALILEO set installs the capless version, whose header check
rejects nothing. -/
theorem modexp_header_cap_pre_galileo (spec : ScrollSpecId) (input : List Nat) :
    (spec.is_enabled_in .GALILEO = false →
      modexp_check_for_spec spec = bernoulli_run_check)
    ∧ (BERNOULLI_LEN_LIMIT < modexp_len_header input 0 →
        bernoulli_run_check input = some .modexpBaseOverflow)
    ∧ (modexp_len_header input 0 ≤ BERNOULLI_LEN_LIMIT →
        BERNOULLI_LEN_LIMIT < modexp_len_header input 32 →
        bernoulli_run_check input = some .modexpExpOverflow)
    ∧ (modexp_len_header input 0 ≤ BERNOULLI_LEN_LIMIT →
        modexp_len_header input 32 ≤ BERNOULLI_LEN_LIMIT →
        BERNOULLI_LEN_LIMIT < modexp_len_header input 64 →
        bernoulli_run_check input = some .modexpModOverflow)
    ∧ (modexp_len_header input 0 ≤ BERNOULLI_LEN_LIMIT →
        modexp_len_header input 32 ≤ BERNOULLI_LEN_LIMIT →
        modexp_len_header input 64 ≤ BERNOULLI_LEN_LIMIT →
        bernoulli_run_check input = none)
    ∧ modexp_check_for_spec .GALILEO input = none := by
  refine ⟨?_, ?_, ?_, ?_, ?_, ?_⟩
  · intro h; simp [modexp_check_for_spec, h]
  · intro h1; simp [bernoulli_run_check, h1]
  · intro h1 h2
    simp [bernoulli_run_check, Nat.not_lt.mpr h1, h2]
  · intro h1 h2 h3
    simp [bernoulli_run_check, Nat.not_lt.mpr h1, Nat.not_lt.mpr h2, h3]
  · intro h1 h2 h3
    simp [bernoulli_run_check, Nat.not_lt.mpr h1, Nat.not_lt.mpr h2, Nat.not_lt.mpr h3]
  · rfl

/-- C2: in PreExecute, for a transaction that is not an L1 message, the
handler first deducts the max fee (base deduction), then computes the L1 cost
from the rlp bytes; if the cost exceeds the remaining balance it fails with
`LackOfFundForMaxFee` (carrying the cost and the remaining balance), else it
deducts the cost, leaving `balance_before - max_fee - l1_cost`. -/
theorem deduct_caller_non_l1 (spec : ScrollSpecId) (kind_is_call : Bool)
    (max_fee : Nat) (bytes : List Nat) (compression_factor : Option Nat)
    (l1_block_info : L1BlockInfo) (caller : Account) (c : Nat)
    (hcost : l1_block_info.calculate_tx_l1_cost bytes spec compression_factor
      = some c)
    (_hmax : max_fee ≤ caller.balance) :
    (c ≤ caller.balance - max_fee →
      deduct_caller spec false kind_is_call max_fee (some bytes)
          compression_factor l1_block_info caller
        = some (.ok { caller with balance := caller.balance - max_fee - c }))
    ∧ (caller.balance - max_fee < c →
      deduct_caller spec false kind_is_call max_fee (some bytes)
          compression_factor l1_block_info caller
        = some (.error (.transaction
            (.lackOfFundForMaxFee c (caller.balance - max_fee))))) := by
  constructor
  · intro hle
    simp [deduct_caller, base_deduct_caller, hcost, Nat.not_lt.mpr hle]
  · intro hlt
    simp [deduct_caller, base_deduct_caller, hcost, hlt]

/-- C2 witness: the CURIE scenario of
`tests/fees.rs::test_should_deduct_correct_fees_curie`: balance 70000, max
fee 21000, rlp bytes `0x01010101`, oracle cost 40000, leaving 9000. -/
theorem deduct_caller_non_l1_witness :
    deduct_caller .CURIE false true 21000 (some [1, 1, 1, 1]) none
        (L1BlockInfo.try_fetch fees_test_db .CURIE) c2_caller
      = some (.ok { c2_caller with balance := c2_caller.balance - 21000 - 40000 }) :=
  (deduct_caller_non_l1 .CURIE true 21000 [1, 1, 1, 1] none
      (L1BlockInfo.try_fetch fees_test_db .CURIE) c2_caller 40000 (by decide)
      (by decide)).1 (by decide)

/-- C8: the BLOCKHASH instruction pushes 0 when the requested block is at
least the current block or more than 256 blocks old; otherwise, before
Feynman it pushes the keccak256 of the 8-byte big-endian chain id followed by
the 8-byte big-endian requested number, and from Feynman onward it pushes the
value `sload` returns for slot `requested mod 8191` of the EIP-2935 history
contract, halting with `FatalExternalError` when that account cannot be
loaded (or the slot load fails). -/
theorem blockhash_behaviour (keccak256 : List Nat → Nat) (spec : ScrollSpecId)
    (chain_id block_number requested_number : Nat)
    (history_account_loaded : Bool) (sload : Nat → Option Nat) (value : Nat)
    (hchain : chain_id ≤ U64_MAX) (hreq : requested_number ≤ U64_MAX) :
    (block_number ≤ requested_number →
      blockhash keccak256 spec chain_id block_number requested_number
          history_account_loaded sload = .push 0)
    ∧ (requested_number + BLOCK_HASH_HISTORY < block_number →
      blockhash keccak256 spec chain_id block_number requested_number
          history_account_loaded sload = .push 0)
    ∧ (requested_number < block_number →
      block_number ≤ requested_number + BLOCK_HASH_HISTORY →
      spec.is_enabled_in .FEYNMAN = false →
      blockhash keccak256 spec chain_id block_number requested_number
          history_account_loaded sload
        = .push (keccak256 (to_be_bytes8 chain_id ++ to_be_bytes8 requested_number)))
    ∧ (requested_number < block_number →
      block_number ≤ requested_number + BLOCK_HASH_HISTORY →
      spec.is_enabled_in .FEYNMAN = true →
      history_account_loaded = false →
      blockhash keccak256 spec chain_id block_number requested_number
          history_account_loaded sload = .fatalExternalError)
    ∧ (requested_number < block_number →
      block_number ≤ requested_number + BLOCK_HASH_HISTORY →
      spec.is_enabled_in .FEYNMAN = true →
      history_account_loaded = true →
      sload (requested_number % HISTORY_SERVE_WINDOW) = some value →
      blockhash keccak256 spec chain_id block_number requested_number
          history_account_loaded sload = .push value)
    ∧ (requested_number < block_number →
      block_number ≤ requested_number + BLOCK_HASH_HISTORY →
      spec.is_enabled_in .FEYNMAN = true →
      history_account_loaded = true →
      sload (requested_number % HISTORY_SERVE_WINDOW) = none →
      blockhash keccak256 spec chain_id block_number requested_number
          history_account_loaded sload = .fatalExternalError) := by
  have h256 : BLOCK_HASH_HISTORY = 256 := rfl
  have hU : (256 : Nat) ≤ U64_MAX := by decide
  refine ⟨?_, ?_, ?_, ?_, ?_, ?_⟩
  · intro h
    rcases Nat.lt_or_ge block_number requested_number with hlt | hge
    · simp [blockhash, hlt]
    · have heq : block_number = requested_number := le_antisymm h hge
      subst heq
      simp [blockhash, as_u64_saturated]
  · intro h
    have hnlt : ¬ block_number < requested_number := by omega
    have hdiff : BLOCK_HASH_HISTORY < as_u64_saturated (block_number - requested_number) := by
      unfold as_u64_saturated
      rcases le_or_lt (block_number - requested_number) U64_MAX with hc | hc
      · rw [Nat.min_eq_left hc]; rw [h256] at h ⊢; omega
      · rw [Nat.min_eq_right (le_of_lt hc)]; decide
    have hne : as_u64_saturated (block_number - requested_number) ≠ 0 := by omega
    simp [blockhash, hnlt, hne, hdiff]
  · intro h1 h2 hf
    have hnlt : ¬ block_number < requested_number := by omega
    have hdr : as_u64_saturated (block_number - requested_number)
        = block_number - requested_number := by
      unfold as_u64_saturated
      exact Nat.min_eq_left (by rw [h256] at h2; omega)
    have hne : block_number - requested_number ≠ 0 := by omega
    have hnd : ¬ BLOCK_HASH_HISTORY < block_number - requested_number := by omega
    have hcid : as_u64_saturated chain_id = chain_id := Nat.min_eq_left hchain
    have hrn : as_u64_saturated requested_number = requested_number :=
      Nat.min_eq_left hreq
    simp [blockhash, hnlt, hdr, hne, hnd, hf, compute_block_hash, hcid, hrn]
  · intro h1 h2 hf hh
    have hnlt : ¬ block_number < requested_number := by omega
    have hdr : as_u64_saturated (block_number - requested_number)
        = block_number - requested_number := by
      unfold as_u64_saturated
      exact Nat.min_eq_left (by rw [h256] at h2; omega)
    have hne : block_number - requested_number ≠ 0 := by omega
    have hnd : ¬ BLOCK_HASH_HISTORY < block_number - requested_number := by omega
    simp [blockhash, hnlt, hdr, hne, hnd, hf, hh]
  · intro h1 h2 hf hh hs
    have hnlt : ¬ block_number < requested_number := by omega
    have hdr : as_u64_saturated (block_number - requested_number)
        = block_number - requested_number := by
      unfold as_u64_saturated
      exact Nat.min_eq_left (by rw [h256] at h2; omega)
    have hne : block_number - requested_number ≠ 0 := by omega
    have hnd : ¬ BLOCK_HASH_HISTORY < block_number - requested_number := by omega
    have hrn : as_u64_saturated requested_number = requested_number :=
      Nat.min_eq_left hreq
    simp [blockhash, hnlt, hdr, hne, hnd, hf, hh, hrn, hs]
  · intro h1 h2 hf hh hs
    have hnlt : ¬ block_number < requested_number := by omega
    have hdr : as_u64_saturated (block_number - requested_number)
        = block_number - requested_number := by
      unfold as_u64_saturated
      exact Nat.min_eq_left (by rw [h256] at h2; omega)
    have hne : block_number - requested_number ≠ 0 := by omega
    have hnd : ¬ BLOCK_HASH_HISTORY < block_number - requested_number := by omega
    have hrn : as_u64_saturated requested_number = requested_number :=
      Nat.min_eq_left hreq
    simp [blockhash, hnlt, hdr, hne, hnd, hf, hh, hrn, hs]

/-- C8 witness: the guard case at a concrete input: requesting the current
block (10 of 10) pushes 0. -/
theorem blockhash_behaviour_witness :
    blockhash (fun _ => 7) .EUCLID 1 10 10 true (fun _ => none) = .push 0 :=
  (blockhash_behaviour (fun _ => 7) .EUCLID 1 10 10 true (fun _ => none) 0
    (by decide) (by decide)).1 (by decide)

lemma u64_clamp_div_eq (a b : Nat) (ha : U256_MAX ≤ a) (hb : U256_MAX ≤ b) :
    min (a / TX_L1_FEE_PRECISION / TX_L1_FEE_PRECISION) U64_MAX
      = min (b / TX_L1_FEE_PRECISION / TX_L1_FEE_PRECISION) U64_MAX := by
  have key : ∀ x : Nat, U256_MAX ≤ x →
      min (x / TX_L1_FEE_PRECISION / TX_L1_FEE_PRECISION) U64_MAX = U64_MAX := by
    intro x hx
    have h1 : U256_MAX / TX_L1_FEE_PRECISION / TX_L1_FEE_PRECISION
        ≤ x / TX_L1_FEE_PRECISION / TX_L1_FEE_PRECISION :=
      Nat.div_le_div_right (Nat.div_le_div_right hx)
    exact Nat.min_eq_right (le_trans (by decide) h1)
  rw [key a ha, key b hb]

/-- Under the final `u64::MAX` clamp, the Feynman chain of saturating
operations agrees with the plain product: either no operation clamps, or the
plain value is also at least `U256_MAX` and both sides clamp to `u64::MAX`. -/
lemma feynman_sat_eq_plain (sz es bf bs bbf pen : Nat) :
    min (saturating_mul (saturating_mul sz
          (saturating_add (saturating_mul es bf) (saturating_mul bs bbf))) pen
        / TX_L1_FEE_PRECISION / TX_L1_FEE_PRECISION) U64_MAX
      = min (sz * (es * bf + bs * bbf) * pen
        / TX_L1_FEE_PRECISION / TX_L1_FEE_PRECISION) U64_MAX := by
  unfold saturating_mul saturating_add
  rcases Nat.eq_zero_or_pos pen with hpen | hpen
  · subst hpen
    simp
  rcases Nat.eq_zero_or_pos sz with hsz | hsz
  · subst hsz
    simp
  rcases le_or_lt U256_MAX (min (es * bf) U256_MAX + min (bs * bbf) U256_MAX)
    with hs | hs
  · rw [Nat.min_eq_right hs]
    have h1 : U256_MAX ≤ sz * U256_MAX := by
      calc U256_MAX = 1 * U256_MAX := (one_mul _).symm
        _ ≤ sz * U256_MAX := Nat.mul_le_mul_right _ hsz
    rw [Nat.min_eq_right h1]
    have h2 : U256_MAX ≤ U256_MAX * pen := by
      calc U256_MAX = U256_MAX * 1 := (mul_one _).symm
        _ ≤ U256_MAX * pen := Nat.mul_le_mul_left _ hpen
    rw [Nat.min_eq_right h2]
    apply u64_clamp_div_eq _ _ (le_refl _)
    have hsum : U256_MAX ≤ es * bf + bs * bbf :=
      le_trans hs (Nat.add_le_add (Nat.min_le_left _ _) (Nat.min_le_left _ _))
    calc U256_MAX ≤ es * bf + bs * bbf := hsum
      _ = 1 * (es * bf + bs * bbf) * 1 := by ring
      _ ≤ sz * (es * bf + bs * bbf) * pen :=
          Nat.mul_le_mul (Nat.mul_le_mul_right _ hsz) hpen
  · have hxlt : min (es * bf) U256_MAX < U256_MAX :=
      lt_of_le_of_lt (Nat.le_add_right _ _) hs
    have hx : min (es * bf) U256_MAX = es * bf := by
      rcases le_total (es * bf) U256_MAX with h | h
      · exact Nat.min_eq_left h
      · rw [Nat.min_eq_right h] at hxlt; exact absurd hxlt (lt_irrefl _)
    have hylt : min (bs * bbf) U256_MAX < U256_MAX :=
      lt_of_le_of_lt (Nat.le_add_left _ _) hs
    have hy : min (bs * bbf) U256_MAX = bs * bbf := by
      rcases le_total (bs * bbf) U256_MAX with h | h
      · exact Nat.min_eq_left h
      · rw [Nat.min_eq_right h] at hylt; exact absurd hylt (lt_irrefl _)
    rw [hx, hy] at hs ⊢
    rw [Nat.min_eq_left (le_of_lt hs)]
    rcases le_or_lt U256_MAX (sz * (es * bf + bs * bbf)) with ht | ht
    · rw [Nat.min_eq_right ht]
      have h2 : U256_MAX ≤ U256_MAX * pen := by
        calc U256_MAX = U256_MAX * 1 := (mul_one _).symm
          _ ≤ U256_MAX * pen := Nat.mul_le_mul_left _ hpen
      rw [Nat.min_eq_right h2]
      apply u64_clamp_div_eq _ _ (le_refl _)
      calc U256_MAX ≤ sz * (es * bf + bs * bbf) := ht
        _ = sz * (es * bf + bs * bbf) * 1 := (mul_one _).symm
        _ ≤ sz * (es * bf + bs * bbf) * pen := Nat.mul_le_mul_left _ hpen
    · rw [Nat.min_eq_left (le_of_lt ht)]
      rcases le_or_lt U256_MAX (sz * (es * bf + bs * bbf) * pen) with hu | hu
      · rw [Nat.min_eq_right hu]
        exact u64_clamp_div_eq _ _ (le_refl _) hu
      · rw [Nat.min_eq_left (le_of_lt hu)]

/-- C1 (amended): for a Feynman-or-later spec and a snapshot with all Feynman
oracle fields populated, `calculate_tx_l1_cost` with a present compression
ratio of at least 1e9 returns
`min u64::MAX (S * (component_exec + component_blob) * penalty / 1e9 / 1e9)`
where `S` is the byte length of the input (the transaction's rlp bytes),
`component_exec = exec_scalar * l1_base_fee`,
`component_blob = l1_blob_scalar * l1_blob_base_fee` and `penalty = 1e9` when
`compression_ratio ≥ penalty_threshold`, else `penalty_factor`; the
computation fails (panics) exactly when the compression ratio is absent or
below 1e9, not when a compressed size is absent. -/
theorem calculate_tx_l1_cost_feynman_formula (info : L1BlockInfo)
    (input : List Nat) (spec_id : ScrollSpecId) (ratio : Nat)
    (exec_scalar blob_scalar blob_base_fee pt pf : Nat)
    (hspec : spec_id.is_enabled_in .FEYNMAN = true)
    (hes : info.l1_commit_scalar = some exec_scalar)
    (hbs : info.l1_blob_scalar = some blob_scalar)
    (hbbf : info.l1_blob_base_fee = some blob_base_fee)
    (hpt : info.penalty_threshold = some pt)
    (hpf : info.penalty_factor = some pf)
    (hratio : TX_L1_FEE_PRECISION ≤ ratio) :
    info.calculate_tx_l1_cost input spec_id (some ratio)
      = some (min (input.length
            * (exec_scalar * info.l1_base_fee + blob_scalar * blob_base_fee)
            * (if pt ≤ ratio then TX_L1_FEE_PRECISION else pf)
          / TX_L1_FEE_PRECISION / TX_L1_FEE_PRECISION) U64_MAX) := by
  have hcurie : spec_id.is_enabled_in .CURIE = true :=
    enabled_CURIE_of_enabled_FEYNMAN spec_id hspec
  unfold L1BlockInfo.calculate_tx_l1_cost L1BlockInfo.calculate_tx_l1_cost_feynman
  rw [hes, hbs, hbbf, hpt, hpf]
  simp only [hcurie, hspec, Nat.not_lt.mpr hratio, Bool.not_true, Bool.false_eq_true,
    if_false, ite_false, if_neg, not_true_eq_false, Option.map_some']
  exact congrArg some (feynman_sat_eq_plain input.length exec_scalar
    info.l1_base_fee blob_scalar blob_base_fee
    (if pt ≤ ratio then TX_L1_FEE_PRECISION else pf))

/-- C1 counterexample: at the Feynman oracle of `tests/fees.rs`
(`exec_scalar = 10`, `blob_scalar = 20`, both base fees 1e9, threshold 6e9,
factor 2e9) and the transaction `c1_tx` (100-byte rlp payload, compression
ratio 5e9, `compressed_size = 40`), the source returns
`100 * (10e9 + 20e9) * 2e9 / 1e18 = 6000`, the input-length-based value,
while the claim formula with `S = compressed_size = 40` gives 2400; and the
computation also succeeds when no compressed size is supplied at all
(`calculate_tx_l1_cost` has no compressed-size argument), refuting the
claimed failure condition. -/
theorem calculate_tx_l1_cost_uses_input_length_cex :
    c1_tx.compressed_size = some 40
    ∧ c1_info.calculate_tx_l1_cost (List.replicate 100 1) .FEYNMAN
        c1_tx.compression_ratio = some 6000
    ∧ spec_claim_feynman_cost c1_info 40 5000000000 = 2400
    ∧ c1_info.calculate_tx_l1_cost (List.replicate 100 1) .FEYNMAN
        ({ c1_tx with compressed_size := none }).compression_ratio = some 6000
    ∧ (6000 : Nat) ≠ 2400 :=
  ⟨rfl, by rfl, by rfl, by rfl, by decide⟩

/-- C1 witness: the amended formula applied at the `tests/fees.rs` Feynman
scenario, with input length 100 and a 2x penalty: the cost is 6000. -/
theorem calculate_tx_l1_cost_feynman_formula_witness :
    c1_info.calculate_tx_l1_cost (List.replicate 100 1) .FEYNMAN (some 5000000000)
      = some (min ((List.replicate 100 (1 : Nat)).length
            * (10 * c1_info.l1_base_fee + 20 * 1000000000)
            * (if 6000000000 ≤ 5000000000 then TX_L1_FEE_PRECISION else 2000000000)
          / TX_L1_FEE_PRECISION / TX_L1_FEE_PRECISION) U64_MAX) :=
  calculate_tx_l1_cost_feynman_formula c1_info (List.replicate 100 1) .FEYNMAN
    5000000000 10 20 1000000000 6000000000 2000000000 rfl rfl rfl rfl rfl rfl
    (by decide)

/-- C10: for every database and spec, the snapshot `try_fetch` returns
populates every optional field that `calculate_tx_l1_cost` (and the
`data_gas` it calls) dereferences at that same spec, so the composition can
never reach a missing-field panic: the computation fails exactly when the
spec is Feynman-or-later and the transaction-supplied compression factor is
absent or below 1e9. -/
theorem try_fetch_populates_fee_fields (db : Nat → Nat) (spec_id : ScrollSpecId)
    (input : List Nat) (compression_factor : Option Nat) :
    ((L1BlockInfo.try_fetch db spec_id).calculate_tx_l1_cost input spec_id
        compression_factor).isSome = true
      ↔ (spec_id.is_enabled_in .FEYNMAN = false
          ∨ ∃ r, compression_factor = some r ∧ TX_L1_FEE_PRECISION ≤ r) := by
  cases spec_id <;> cases compression_factor <;>
    simp [L1BlockInfo.try_fetch, L1BlockInfo.calculate_tx_l1_cost,
      L1BlockInfo.calculate_tx_l1_cost_shanghai, L1BlockInfo.calculate_tx_l1_cost_curie,
      L1BlockInfo.calculate_tx_l1_cost_feynman, L1BlockInfo.data_gas,
      ScrollSpecId.is_enabled_in, ScrollSpecId.toNat]

end ScrollRevm
